import Mathlib

/- Verification development for the jupyterlab_kernel_terminal_workspace_culler_extension
   repository.  The definitions below are a shallow embedding of
   src/jupyterlab_kernel_terminal_workspace_culler_extension/culler.py
   (class ResourceCuller) and of format_idle_time from
   src/jupyterlab_kernel_terminal_workspace_culler_extension/cli.py.

   Modelling conventions:
   - Instants in time are integers counting seconds (UTC).  All idle-time
     arithmetic in the source is exact subtraction of timestamps, embedded
     here at whole-second granularity.
   - Python datetime values and ISO-8601 timestamp strings are embedded by
     the inductive types DateTime and TimeVal; each constructor records the
     UTC instant the value denotes, and the normalisation performed by the
     source (replacing a trailing Z with an explicit offset before parsing,
     and treating zone-less values as UTC) is the resolve function.
   - External managers are environment records: listing operations return
     an Except value (error models the listing call raising), and a
     per-identifier Bool oracle models whether the asynchronous
     shutdown/terminate/delete call for that resource raises.  A raising
     get_kernel call and a None result take the same observable path in
     the source (the kernel is skipped), so both are embedded as none.
   - JSON settings values are embedded as booleans or integers; a value is
     coerced at the point of use exactly as Python would (truthiness for
     flag tests, bool-as-0/1 for arithmetic), so coercing at assignment
     into the typed state is observationally equivalent.
   - Python float formatting with one decimal place is embedded as exact
     rational rounding (ties to even) implemented on integers. -/

namespace Culler

/-- A Python datetime value: tz-aware, or naive (zone-less).  The payload is
the UTC instant it denotes; for a naive value the instant obtained by reading
its fields as UTC, which is what the source does via replace with tzinfo utc
(culler.py lines 260-261, 322-323, 382-383, 451-452). -/
inductive DateTime
  | aware (t : ℤ)
  | naive (t : ℤ)
deriving DecidableEq

/-- Normalisation of a datetime to a UTC instant, as performed by the source
before subtraction (replace tzinfo with utc when naive). -/
def DateTime.toUtc : DateTime → ℤ
  | .aware t => t
  | .naive t => t

/-- A last-activity or last-modified value as received from a manager:
either a datetime object, or an ISO-8601 string with a trailing Z, or an
ISO-8601 string without zone information.  The payload is the UTC instant
denoted. -/
inductive TimeVal
  | dt (d : DateTime)
  | isoZ (t : ℤ)
  | isoNaive (t : ℤ)
deriving DecidableEq

/-- The parsing and normalisation the source applies to a terminal or
workspace timestamp (culler.py lines 316-323): if it is a string, replace a
trailing Z with an explicit UTC offset and parse; then, if the result is
naive, treat it as UTC.  Every case denotes its recorded UTC instant. -/
def TimeVal.resolve : TimeVal → ℤ
  | .dt d => d.toUtc
  | .isoZ t => t
  | .isoNaive t => t

/-- A kernel object as returned by kernel_manager.get_kernel.  The source
reads execution_state with getattr defaulting to "idle" and last_activity
with getattr defaulting to None (culler.py lines 250, 255), so both are
embedded as optional fields. -/
structure Kernel where
  execution_state : Option String
  last_activity : Option DateTime
deriving DecidableEq

/-- A terminal entry as returned by terminal_manager.list: a dict read with
get("name") and get("last_activity") (culler.py lines 299, 311). -/
structure TerminalRec where
  name : Option String
  last_activity : Option TimeVal
deriving DecidableEq

/-- A workspace entry: only its metadata dict matters to the source, read
with get("id") and get("last_modified") (culler.py lines 361-371, 431-440). -/
structure WorkspaceRec where
  id : Option String
  last_modified : Option TimeVal
deriving DecidableEq

/-- Kernel manager snapshot for one pass.  list_kernel_ids is error when the
listing call raises (culler.py lines 237-241); get_kernel yields none when
the kernel is unobtainable; shutdown_fails k is true when the asynchronous
shutdown_kernel call for k raises (caught at lines 275-276). -/
structure KernelMgr where
  list_kernel_ids : Except Unit (List String)
  get_kernel : String → Option Kernel
  shutdown_fails : String → Bool

/-- Terminal manager snapshot; terminate_fails n is true when the
asynchronous terminate call for n raises (caught at lines 337-338). -/
structure TerminalMgr where
  list_terminals : Except Unit (List TerminalRec)
  terminate_fails : String → Bool

/-- Workspace manager snapshot; delete_fails w is true when the delete call
for w raises (caught at lines 397-398 and 491-497). -/
structure WorkspaceMgr where
  list_workspaces : Except Unit (List WorkspaceRec)
  delete_fails : String → Bool

/-- The external world one culling pass observes: the three managers (the
terminal and workspace managers may be unavailable, culler.py lines 286-289
and 348-351) and the current UTC instant datetime.now returns. -/
structure Env where
  kernel_mgr : KernelMgr
  terminal_mgr : Option TerminalMgr
  workspace_mgr : Option WorkspaceMgr
  now : ℤ

/-- A JSON settings value: the settings the source reads are booleans and
numbers.  Coercions mirror Python semantics at the use sites (truthiness of
an int, bool arithmetic as 0/1). -/
inductive SettingValue
  | boolVal (b : Bool)
  | intVal (n : ℤ)
deriving DecidableEq

/-- Coercion of a settings value used as a flag (Python truthiness). -/
def SettingValue.toBool : SettingValue → Bool
  | .boolVal b => b
  | .intVal n => n != 0

/-- Coercion of a settings value used in arithmetic (Python bool is 0/1). -/
def SettingValue.toInt : SettingValue → ℤ
  | .boolVal b => if b then 1 else 0
  | .intVal n => n

/-- The last-cull-result snapshot (culler.py lines 31-35). -/
structure CullResult where
  kernels_culled : List String
  terminals_culled : List String
  workspaces_culled : List String
deriving DecidableEq

/-- An observable action on the scheduling primitive: stopping the periodic
callback, or starting one with a given period in milliseconds. -/
inductive SchedEvent
  | stop
  | start (interval_ms : ℤ)
deriving DecidableEq

/-- The mutable state of a ResourceCuller instance, with the defaults set in
the constructor (culler.py lines 20-42).  periodic_callback records the
period in milliseconds of the attached PeriodicCallback, none when stopped. -/
structure CullerState where
  kernel_cull_enabled : Bool := true
  kernel_cull_idle_timeout : ℤ := 60
  terminal_cull_enabled : Bool := true
  terminal_cull_idle_timeout : ℤ := 60
  terminal_cull_disconnected_only : Bool := true
  workspace_cull_enabled : Bool := true
  workspace_cull_idle_timeout : ℤ := 10080
  cull_check_interval : ℤ := 5
  last_cull_result : CullResult := ⟨[], [], []⟩
  result_consumed : Bool := true
  active_terminals : List String := []
  periodic_callback : Option ℤ := none
deriving DecidableEq

/-- Membership probe of a key in the settings dict of an update request,
embedding the Python `key in settings` test plus `settings[key]` read.
The request is an association list (JSON objects have unique keys). -/
def lookupKey (settings : List (String × SettingValue)) (key : String) :
    Option SettingValue :=
  (settings.find? (fun p => p.1 == key)).map (fun p => p.2)

/-- ResourceCuller.get_settings (culler.py lines 111-122). -/
def get_settings (s : CullerState) : List (String × SettingValue) :=
  [("kernelCullEnabled", .boolVal s.kernel_cull_enabled),
   ("kernelCullIdleTimeout", .intVal s.kernel_cull_idle_timeout),
   ("terminalCullEnabled", .boolVal s.terminal_cull_enabled),
   ("terminalCullIdleTimeout", .intVal s.terminal_cull_idle_timeout),
   ("terminalCullDisconnectedOnly", .boolVal s.terminal_cull_disconnected_only),
   ("workspaceCullEnabled", .boolVal s.workspace_cull_enabled),
   ("workspaceCullIdleTimeout", .intVal s.workspace_cull_idle_timeout),
   ("cullCheckInterval", .intVal s.cull_check_interval)]

/-- ResourceCuller.start (culler.py lines 131-144): a no-op when already
running, otherwise attaches a PeriodicCallback with period
cull_check_interval * 60 * 1000 milliseconds and starts it. -/
def start (s : CullerState) : CullerState × List SchedEvent :=
  if s.periodic_callback.isSome then (s, [])
  else
    let interval_ms := s.cull_check_interval * 60 * 1000
    ({ s with periodic_callback := some interval_ms }, [.start interval_ms])

/-- ResourceCuller.stop (culler.py lines 146-151): stops and detaches the
periodic callback when one is attached; idempotent. -/
def stop (s : CullerState) : CullerState × List SchedEvent :=
  match s.periodic_callback with
  | some _ => ({ s with periodic_callback := none }, [.stop])
  | none => (s, [])

/-- ResourceCuller.get_last_cull_result (culler.py lines 153-158): an
all-empty structure when already consumed, otherwise the stored result,
marking it consumed. -/
def get_last_cull_result (s : CullerState) : CullResult × CullerState :=
  if s.result_consumed then (⟨[], [], []⟩, s)
  else (s.last_cull_result, { s with result_consumed := true })

/-- ResourceCuller.set_active_terminals (culler.py lines 178-181): replaces
the active-terminal registry wholesale.  The Python set is embedded as the
given list, used only through membership tests. -/
def set_active_terminals (s : CullerState) (terminals : List String) :
    CullerState :=
  { s with active_terminals := terminals }

/-- ResourceCuller._terminal_has_active_tab (culler.py lines 183-185). -/
def terminal_has_active_tab (s : CullerState) (name : String) : Bool :=
  s.active_terminals.contains name

/-- Block of ResourceCuller.update_settings for key kernelCullEnabled
(culler.py lines 80-81). -/
def upd_kernel_cull_enabled (settings : List (String × SettingValue))
    (s : CullerState) : CullerState :=
  match lookupKey settings "kernelCullEnabled" with
  | some v => { s with kernel_cull_enabled := v.toBool }
  | none => s

/-- Block of update_settings for key kernelCullIdleTimeout (lines 82-83). -/
def upd_kernel_cull_idle_timeout (settings : List (String × SettingValue))
    (s : CullerState) : CullerState :=
  match lookupKey settings "kernelCullIdleTimeout" with
  | some v => { s with kernel_cull_idle_timeout := v.toInt }
  | none => s

/-- Block of update_settings for key terminalCullEnabled (lines 84-85). -/
def upd_terminal_cull_enabled (settings : List (String × SettingValue))
    (s : CullerState) : CullerState :=
  match lookupKey settings "terminalCullEnabled" with
  | some v => { s with terminal_cull_enabled := v.toBool }
  | none => s

/-- Block of update_settings for key terminalCullIdleTimeout (lines 86-87). -/
def upd_terminal_cull_idle_timeout (settings : List (String × SettingValue))
    (s : CullerState) : CullerState :=
  match lookupKey settings "terminalCullIdleTimeout" with
  | some v => { s with terminal_cull_idle_timeout := v.toInt }
  | none => s

/-- Block of update_settings for key terminalCullDisconnectedOnly
(lines 88-89). -/
def upd_terminal_cull_disconnected_only (settings : List (String × SettingValue))
    (s : CullerState) : CullerState :=
  match lookupKey settings "terminalCullDisconnectedOnly" with
  | some v => { s with terminal_cull_disconnected_only := v.toBool }
  | none => s

/-- Block of update_settings for key workspaceCullEnabled (lines 90-91). -/
def upd_workspace_cull_enabled (settings : List (String × SettingValue))
    (s : CullerState) : CullerState :=
  match lookupKey settings "workspaceCullEnabled" with
  | some v => { s with workspace_cull_enabled := v.toBool }
  | none => s

/-- Block of update_settings for key workspaceCullIdleTimeout (lines 92-93). -/
def upd_workspace_cull_idle_timeout (settings : List (String × SettingValue))
    (s : CullerState) : CullerState :=
  match lookupKey settings "workspaceCullIdleTimeout" with
  | some v => { s with workspace_cull_idle_timeout := v.toInt }
  | none => s

/-- Block of update_settings for key cullCheckInterval (culler.py lines
94-101): when the key is present and carries a value different from the
current one, the field is updated and, if a periodic callback is attached,
the culler performs stop() followed by start(). -/
def upd_cull_check_interval (settings : List (String × SettingValue))
    (s : CullerState) : CullerState × List SchedEvent :=
  match lookupKey settings "cullCheckInterval" with
  | some v =>
    let new_interval := v.toInt
    if new_interval != s.cull_check_interval then
      let s := { s with cull_check_interval := new_interval }
      if s.periodic_callback.isSome then
        let p1 := stop s
        let p2 := start p1.1
        (p2.1, p1.2 ++ p2.2)
      else (s, [])
    else (s, [])
  | none => (s, [])

/-- ResourceCuller.update_settings (culler.py lines 78-109): applies each
recognised key in source order; keys absent from the request leave the
corresponding field untouched, and unrecognised keys are never probed. -/
def update_settings (s : CullerState) (settings : List (String × SettingValue)) :
    CullerState × List SchedEvent :=
  let s := upd_kernel_cull_enabled settings s
  let s := upd_kernel_cull_idle_timeout settings s
  let s := upd_terminal_cull_enabled settings s
  let s := upd_terminal_cull_idle_timeout settings s
  let s := upd_terminal_cull_disconnected_only settings s
  let s := upd_workspace_cull_enabled settings s
  let s := upd_workspace_cull_idle_timeout settings s
  upd_cull_check_interval settings s

/-- ResourceCuller.get_status (culler.py lines 124-129). -/
def get_status (s : CullerState) : Bool × List (String × SettingValue) :=
  (s.periodic_callback.isSome, get_settings s)

/-- Rounding of the exact rational a / b (with b positive) to the nearest
integer, ties to even: the rounding Python applies when formatting a value
with one decimal place. -/
def roundHalfEven (a b : ℤ) : ℤ :=
  let q := a.ediv b
  let r := a.emod b
  if 2 * r < b then q
  else if 2 * r > b then q + 1
  else if q % 2 = 0 then q else q + 1

/-- Digits of a nonnegative tenths count n10 rendered as a fixed-point
string with one decimal place. -/
def fixedOneOfNat (n10 : ℕ) : String :=
  toString (n10 / 10) ++ "." ++ toString (n10 % 10)

/-- Python fixed-point formatting with one decimal place of the exact
quotient a / b (b positive), as in the format expressions of culler.py and
cli.py. -/
def pyFormatFixed1 (a b : ℤ) : String :=
  let n10 := roundHalfEven (10 * a) b
  if n10 < 0 then "-" ++ fixedOneOfNat (-n10).toNat
  else fixedOneOfNat n10.toNat

/-- Python fixed-point formatting with no decimal places of an integral
number of seconds, as in the seconds branch of format_idle_time. -/
def pyFormatFixed0 (n : ℤ) : String :=
  toString n

/-- The idle-time display string built inline by
ResourceCuller.cull_workspaces_with_timeout (culler.py lines 459-465 and,
identically, lines 478-484): minutes below one hour, hours below one day,
days otherwise. -/
def format_idle_engine (idle_seconds : ℤ) : String :=
  if idle_seconds < 3600 then pyFormatFixed1 idle_seconds 60 ++ "m"
  else if idle_seconds < 86400 then pyFormatFixed1 idle_seconds 3600 ++ "h"
  else pyFormatFixed1 idle_seconds 86400 ++ "d"

/-- format_idle_time from cli.py lines 71-92: resolves the timestamp the
same way the culler does and renders seconds below one minute, minutes below
one hour, hours below one day, days otherwise. -/
def format_idle_time (last_activity : Option TimeVal) (now : ℤ) : String :=
  match last_activity with
  | none => "unknown"
  | some la =>
    let idle_seconds := now - la.resolve
    if idle_seconds < 60 then pyFormatFixed0 idle_seconds ++ "s"
    else if idle_seconds < 3600 then pyFormatFixed1 idle_seconds 60 ++ "m"
    else if idle_seconds < 86400 then pyFormatFixed1 idle_seconds 3600 ++ "h"
    else pyFormatFixed1 idle_seconds 86400 ++ "d"

/-- Loop body of ResourceCuller._cull_kernels (culler.py lines 243-277).
Returns the culled list and the list of shutdown_kernel invocations, in
iteration order.  A kernel whose shutdown call raises is invoked but the
exception handler skips the append, so it is absent from the culled list and
the loop continues. -/
def cull_kernels_loop (timeout_seconds now : ℤ) (m : KernelMgr) :
    List String → List String × List String
  | [] => ([], [])
  | kernel_id :: rest =>
    match m.get_kernel kernel_id with
    | none => cull_kernels_loop timeout_seconds now m rest
    | some kernel =>
      if kernel.execution_state.getD "idle" == "busy" then
        cull_kernels_loop timeout_seconds now m rest
      else
        match kernel.last_activity with
        | none => cull_kernels_loop timeout_seconds now m rest
        | some last_activity =>
          if now - last_activity.toUtc > timeout_seconds then
            let res := cull_kernels_loop timeout_seconds now m rest
            if m.shutdown_fails kernel_id then (res.1, kernel_id :: res.2)
            else (kernel_id :: res.1, kernel_id :: res.2)
          else cull_kernels_loop timeout_seconds now m rest

/-- ResourceCuller._cull_kernels (culler.py lines 231-278): a listing
failure aborts the policy with an empty result. -/
def cull_kernels (s : CullerState) (e : Env) : List String × List String :=
  match e.kernel_mgr.list_kernel_ids with
  | .error _ => ([], [])
  | .ok kernel_ids =>
    cull_kernels_loop (s.kernel_cull_idle_timeout * 60) e.now e.kernel_mgr
      kernel_ids

/-- The per-kernel predicate of _cull_kernels: obtainable, not busy, with a
present last_activity whose idle time strictly exceeds the threshold. -/
def kernel_should_cull (timeout_seconds now : ℤ) (m : KernelMgr)
    (kernel_id : String) : Bool :=
  match m.get_kernel kernel_id with
  | none => false
  | some kernel =>
    if kernel.execution_state.getD "idle" == "busy" then false
    else
      match kernel.last_activity with
      | none => false
      | some last_activity =>
        decide (now - last_activity.toUtc > timeout_seconds)

/-- Loop body of ResourceCuller._cull_terminals (culler.py lines 297-338). -/
def cull_terminals_loop (timeout_seconds now : ℤ) (active : List String)
    (disconnected_only : Bool) (fails : String → Bool) :
    List TerminalRec → List String × List String
  | [] => ([], [])
  | terminal :: rest =>
    match terminal.name with
    | none => cull_terminals_loop timeout_seconds now active disconnected_only fails rest
    | some name =>
      if disconnected_only && active.contains name then
        cull_terminals_loop timeout_seconds now active disconnected_only fails rest
      else
        match terminal.last_activity with
        | none => cull_terminals_loop timeout_seconds now active disconnected_only fails rest
        | some last_activity =>
          if now - last_activity.resolve > timeout_seconds then
            let res := cull_terminals_loop timeout_seconds now active disconnected_only fails rest
            if fails name then (res.1, name :: res.2)
            else (name :: res.1, name :: res.2)
          else cull_terminals_loop timeout_seconds now active disconnected_only fails rest

/-- ResourceCuller._cull_terminals (culler.py lines 280-340): an unavailable
manager or a listing failure yields an empty result. -/
def cull_terminals (s : CullerState) (e : Env) : List String × List String :=
  match e.terminal_mgr with
  | none => ([], [])
  | some m =>
    match m.list_terminals with
    | .error _ => ([], [])
    | .ok terminals =>
      cull_terminals_loop (s.terminal_cull_idle_timeout * 60) e.now
        s.active_terminals s.terminal_cull_disconnected_only
        m.terminate_fails terminals

/-- The per-terminal selection of _cull_terminals: the name of the terminal
when it is named, not exempted by the disconnected-only rule, and idle
strictly beyond the threshold. -/
def terminal_eligible (timeout_seconds now : ℤ) (active : List String)
    (disconnected_only : Bool) (terminal : TerminalRec) : Option String :=
  match terminal.name with
  | none => none
  | some name =>
    if disconnected_only && active.contains name then none
    else
      match terminal.last_activity with
      | none => none
      | some last_activity =>
        if now - last_activity.resolve > timeout_seconds then some name
        else none

/-- Loop body of ResourceCuller._cull_workspaces (culler.py lines 359-398). -/
def cull_workspaces_loop (timeout_seconds now : ℤ) (fails : String → Bool) :
    List WorkspaceRec → List String × List String
  | [] => ([], [])
  | workspace :: rest =>
    match workspace.id with
    | none => cull_workspaces_loop timeout_seconds now fails rest
    | some workspace_id =>
      if workspace_id == "default" then
        cull_workspaces_loop timeout_seconds now fails rest
      else
        match workspace.last_modified with
        | none => cull_workspaces_loop timeout_seconds now fails rest
        | some last_modified =>
          if now - last_modified.resolve > timeout_seconds then
            let res := cull_workspaces_loop timeout_seconds now fails rest
            if fails workspace_id then (res.1, workspace_id :: res.2)
            else (workspace_id :: res.1, workspace_id :: res.2)
          else cull_workspaces_loop timeout_seconds now fails rest

/-- ResourceCuller._cull_workspaces (culler.py lines 342-400). -/
def cull_workspaces (s : CullerState) (e : Env) : List String × List String :=
  match e.workspace_mgr with
  | none => ([], [])
  | some m =>
    match m.list_workspaces with
    | .error _ => ([], [])
    | .ok workspaces =>
      cull_workspaces_loop (s.workspace_cull_idle_timeout * 60) e.now
        m.delete_fails workspaces

/-- The per-workspace selection of _cull_workspaces and of
cull_workspaces_with_timeout: the identifier when present, not the reserved
value default, and modified strictly longer ago than the threshold. -/
def workspace_eligible (timeout_seconds now : ℤ) (workspace : WorkspaceRec) :
    Option String :=
  match workspace.id with
  | none => none
  | some workspace_id =>
    if workspace_id == "default" then none
    else
      match workspace.last_modified with
      | none => none
      | some last_modified =>
        if now - last_modified.resolve > timeout_seconds then some workspace_id
        else none

/-- An entry of the result of cull_workspaces_with_timeout (culler.py lines
466-470, 485-489, 493-497). -/
structure WsCullEntry where
  id : String
  idle_time : String
  action : String
deriving DecidableEq

/-- Loop body of ResourceCuller.cull_workspaces_with_timeout (culler.py
lines 429-497).  Returns the result entries and the list of delete
invocations.  In dry-run mode nothing is deleted and eligible entries are
tagged would_cull; otherwise delete is invoked and the entry is tagged
culled, or failed with idle time unknown when the delete call raises. -/
def cull_workspaces_with_timeout_loop (timeout_seconds now : ℤ)
    (fails : String → Bool) (dry_run : Bool) :
    List WorkspaceRec → List WsCullEntry × List String
  | [] => ([], [])
  | workspace :: rest =>
    match workspace.id with
    | none => cull_workspaces_with_timeout_loop timeout_seconds now fails dry_run rest
    | some workspace_id =>
      if workspace_id == "default" then
        cull_workspaces_with_timeout_loop timeout_seconds now fails dry_run rest
      else
        match workspace.last_modified with
        | none => cull_workspaces_with_timeout_loop timeout_seconds now fails dry_run rest
        | some last_modified =>
          let idle_seconds := now - last_modified.resolve
          if idle_seconds > timeout_seconds then
            let res := cull_workspaces_with_timeout_loop timeout_seconds now fails dry_run rest
            if dry_run then
              (⟨workspace_id, format_idle_engine idle_seconds, "would_cull"⟩ :: res.1,
               res.2)
            else if fails workspace_id then
              (⟨workspace_id, "unknown", "failed"⟩ :: res.1,
               workspace_id :: res.2)
            else
              (⟨workspace_id, format_idle_engine idle_seconds, "culled"⟩ :: res.1,
               workspace_id :: res.2)
          else cull_workspaces_with_timeout_loop timeout_seconds now fails dry_run rest

/-- ResourceCuller.cull_workspaces_with_timeout (culler.py lines 402-499):
the timeout-parameterised, dry-run-capable variant used by the CLI; it does
not read the engine-held workspace timeout. -/
def cull_workspaces_with_timeout (e : Env) (timeout_minutes : ℤ)
    (dry_run : Bool) : List WsCullEntry × List String :=
  match e.workspace_mgr with
  | none => ([], [])
  | some m =>
    match m.list_workspaces with
    | .error _ => ([], [])
    | .ok workspaces =>
      cull_workspaces_with_timeout_loop (timeout_minutes * 60) e.now
        m.delete_fails dry_run workspaces

/-- The per-pass observable outcome: the three culled lists and the three
manager invocation traces. -/
structure PassTrace where
  kernels_culled : List String
  terminals_culled : List String
  workspaces_culled : List String
  shutdown_calls : List String
  terminate_calls : List String
  delete_calls : List String
deriving DecidableEq

/-- ResourceCuller._cull_idle_resources (culler.py lines 207-229): runs each
enabled policy in order and stores the aggregate as the last cull result,
flipping the consumed flag, only when at least one resource was evicted. -/
def cull_idle_resources (s : CullerState) (e : Env) : CullerState × PassTrace :=
  let kres := if s.kernel_cull_enabled then cull_kernels s e else ([], [])
  let tres := if s.terminal_cull_enabled then cull_terminals s e else ([], [])
  let wres := if s.workspace_cull_enabled then cull_workspaces s e else ([], [])
  let s2 :=
    if !kres.1.isEmpty || !tres.1.isEmpty || !wres.1.isEmpty then
      { s with last_cull_result := ⟨kres.1, tres.1, wres.1⟩,
               result_consumed := false }
    else s
  (s2, ⟨kres.1, tres.1, wres.1, kres.2, tres.2, wres.2⟩)

/-- The list of settings keys update_settings recognises. -/
def settings_keys : List String :=
  ["kernelCullEnabled", "kernelCullIdleTimeout", "terminalCullEnabled",
   "terminalCullIdleTimeout", "terminalCullDisconnectedOnly",
   "workspaceCullEnabled", "workspaceCullIdleTimeout", "cullCheckInterval"]

/-- A concrete kernel manager holding one obtainable idle kernel k1, last
active at instant 0, whose shutdown call succeeds. -/
def sampleKernelMgr : KernelMgr :=
  { list_kernel_ids := Except.ok ["k1"],
    get_kernel := fun kid =>
      if kid = "k1" then
        some { execution_state := some "idle", last_activity := some (.aware 0) }
      else none,
    shutdown_fails := fun _ => false }

/-- A kernel manager whose listing call raises. -/
def failingKernelMgr : KernelMgr :=
  { list_kernel_ids := Except.error (),
    get_kernel := fun _ => none,
    shutdown_fails := fun _ => false }

/-- A kernel manager with no kernels. -/
def emptyKernelMgr : KernelMgr :=
  { list_kernel_ids := Except.ok [],
    get_kernel := fun _ => none,
    shutdown_fails := fun _ => false }

/-- A kernel manager holding one kernel k1 that carries no execution_state
attribute, last active at instant 0. -/
def noStateKernelMgr : KernelMgr :=
  { list_kernel_ids := Except.ok ["k1"],
    get_kernel := fun kid =>
      if kid = "k1" then
        some { execution_state := none, last_activity := some (.aware 0) }
      else none,
    shutdown_fails := fun _ => false }

/-- A concrete terminal manager holding one terminal t1 whose last activity
is an ISO-8601 string with a trailing Z denoting instant 0. -/
def sampleTerminalMgr : TerminalMgr :=
  { list_terminals := Except.ok [{ name := some "t1",
                                   last_activity := some (.isoZ 0) }],
    terminate_fails := fun _ => false }

/-- A concrete workspace manager holding the reserved default workspace and
one workspace ws1, both last modified at instant 0. -/
def sampleWorkspaceMgr : WorkspaceMgr :=
  { list_workspaces := Except.ok
      [{ id := some "default", last_modified := some (.isoZ 0) },
       { id := some "ws1", last_modified := some (.isoZ 0) }],
    delete_fails := fun _ => false }

/-- Environment with the sample kernel manager, 3601 seconds after k1 was
last active. -/
def sampleEnvKernel : Env :=
  { kernel_mgr := sampleKernelMgr, terminal_mgr := none,
    workspace_mgr := none, now := 3601 }

/-- Environment with the no-execution-state kernel manager, 3601 seconds
after k1 was last active. -/
def sampleEnvNoState : Env :=
  { kernel_mgr := noStateKernelMgr, terminal_mgr := none,
    workspace_mgr := none, now := 3601 }

/-- Environment whose kernel listing raises. -/
def sampleEnvListingRaises : Env :=
  { kernel_mgr := failingKernelMgr, terminal_mgr := none,
    workspace_mgr := none, now := 0 }

/-- Environment with the sample terminal manager, exactly 3600 seconds after
t1 was last active. -/
def sampleEnvTerminalBoundary : Env :=
  { kernel_mgr := emptyKernelMgr, terminal_mgr := some sampleTerminalMgr,
    workspace_mgr := none, now := 3600 }

/-- Environment with the sample terminal manager, 3601 seconds after t1 was
last active. -/
def sampleEnvTerminalOver : Env :=
  { kernel_mgr := emptyKernelMgr, terminal_mgr := some sampleTerminalMgr,
    workspace_mgr := none, now := 3601 }

/-- Environment with the sample terminal manager, one million seconds after
t1 was last active. -/
def sampleEnvTerminalLong : Env :=
  { kernel_mgr := emptyKernelMgr, terminal_mgr := some sampleTerminalMgr,
    workspace_mgr := none, now := 1000000 }

/-- Environment with the sample workspace manager, 59 seconds after ws1 was
last modified. -/
def sampleEnvWorkspace59 : Env :=
  { kernel_mgr := emptyKernelMgr, terminal_mgr := none,
    workspace_mgr := some sampleWorkspaceMgr, now := 59 }


theorem cull_kernels_loop_eq (ts now : ℤ) (m : KernelMgr) (ids : List String) :
    cull_kernels_loop ts now m ids =
      (ids.filter (fun i => kernel_should_cull ts now m i && !m.shutdown_fails i),
       ids.filter (fun i => kernel_should_cull ts now m i)) := by
  induction ids with
  | nil => rfl
  | cons kid rest ih =>
    simp only [cull_kernels_loop, List.filter_cons]
    cases hg : m.get_kernel kid with
    | none => simp [kernel_should_cull, hg, ih]
    | some k =>
      cases hb : (k.execution_state.getD "idle" == "busy") with
      | true => simp [kernel_should_cull, hg, hb, ih]
      | false =>
        cases hla : k.last_activity with
        | none => simp [kernel_should_cull, hg, hb, hla, ih]
        | some la =>
          by_cases hidle : now - la.toUtc > ts
          · by_cases hf : m.shutdown_fails kid
            · simp [kernel_should_cull, hg, hb, hla, hidle, hf, ih]
            · simp [kernel_should_cull, hg, hb, hla, hidle, hf, ih]
          · simp [kernel_should_cull, hg, hb, hla, hidle, ih]

theorem kernel_should_cull_true_iff (ts now : ℤ) (m : KernelMgr) (kid : String) :
    kernel_should_cull ts now m kid = true ↔
      ∃ k, m.get_kernel kid = some k ∧
        k.execution_state.getD "idle" ≠ "busy" ∧
        ∃ la, k.last_activity = some la ∧ now - la.toUtc > ts := by
  unfold kernel_should_cull
  cases hg : m.get_kernel kid with
  | none => simp
  | some k =>
    cases hb : (k.execution_state.getD "idle" == "busy") with
    | true =>
      simp only [if_pos rfl]
      simp [beq_iff_eq] at hb
      simp [hb]
    | false =>
      simp only [Bool.false_eq_true, if_neg]
      simp [beq_iff_eq] at hb
      cases hla : k.last_activity with
      | none => simp [hla, hb]
      | some la => simp [hla, hb]

theorem cull_terminals_loop_cons (ts now : ℤ) (active : List String)
    (disc : Bool) (fails : String → Bool) (t : TerminalRec)
    (rest : List TerminalRec) :
    cull_terminals_loop ts now active disc fails (t :: rest) =
      (match terminal_eligible ts now active disc t with
       | none => cull_terminals_loop ts now active disc fails rest
       | some n =>
         if fails n then
           ((cull_terminals_loop ts now active disc fails rest).1,
            n :: (cull_terminals_loop ts now active disc fails rest).2)
         else
           (n :: (cull_terminals_loop ts now active disc fails rest).1,
            n :: (cull_terminals_loop ts now active disc fails rest).2)) := by
  simp only [cull_terminals_loop, terminal_eligible]
  cases hn : t.name with
  | none => simp
  | some name =>
    by_cases ha : disc = true ∧ name ∈ active
    · simp [ha]
    · cases hla : t.last_activity with
      | none => simp [ha]
      | some la =>
        by_cases hidle : ts < now - la.resolve
        · by_cases hf : fails name = true
          · simp [ha, hidle, hf]
          · simp [ha, hidle, hf]
        · simp [ha, hidle]

theorem cull_terminals_loop_eq (ts now : ℤ) (active : List String)
    (disc : Bool) (fails : String → Bool) (terminals : List TerminalRec) :
    cull_terminals_loop ts now active disc fails terminals =
      (terminals.filterMap (fun t =>
         (terminal_eligible ts now active disc t).bind
           (fun n => if fails n then none else some n)),
       terminals.filterMap (terminal_eligible ts now active disc)) := by
  induction terminals with
  | nil => rfl
  | cons t rest ih =>
    rw [cull_terminals_loop_cons, List.filterMap_cons, List.filterMap_cons]
    cases hel : terminal_eligible ts now active disc t with
    | none => simp [hel, ih]
    | some n =>
      by_cases hf : fails n = true
      · simp [hel, hf, ih]
      · simp [hel, hf, ih]

theorem terminal_eligible_of_active (ts now : ℤ) (active : List String)
    (disc : Bool) (t : TerminalRec) (n : String)
    (hdisc : disc = true) (hmem : n ∈ active) :
    terminal_eligible ts now active disc t ≠ some n := by
  unfold terminal_eligible
  cases hn : t.name with
  | none => simp
  | some name =>
    by_cases ha : disc = true ∧ name ∈ active
    · simp [ha]
    · cases hla : t.last_activity with
      | none => simp [ha]
      | some la =>
        by_cases hidle : ts < now - la.resolve
        · simp [ha, hidle]
          intro hcon
          subst hcon
          exact ha ⟨hdisc, hmem⟩
        · simp [ha, hidle]

theorem cull_workspaces_loop_eq (ts now : ℤ) (fails : String → Bool)
    (workspaces : List WorkspaceRec) :
    cull_workspaces_loop ts now fails workspaces =
      (workspaces.filterMap (fun w =>
         (workspace_eligible ts now w).bind
           (fun wid => if fails wid then none else some wid)),
       workspaces.filterMap (workspace_eligible ts now)) := by
  induction workspaces with
  | nil => rfl
  | cons w rest ih =>
    simp only [cull_workspaces_loop, List.filterMap_cons]
    cases hi : w.id with
    | none => simp [workspace_eligible, hi, ih]
    | some wid =>
      by_cases hd : wid = "default"
      · simp [workspace_eligible, hi, hd, ih]
      · cases hlm : w.last_modified with
        | none => simp [workspace_eligible, hi, hd, hlm, ih]
        | some lm =>
          by_cases hidle : ts < now - lm.resolve
          · by_cases hf : fails wid = true
            · simp [workspace_eligible, hi, hd, hlm, hidle, hf, ih]
            · simp [workspace_eligible, hi, hd, hlm, hidle, hf, ih]
          · simp [workspace_eligible, hi, hd, hlm, hidle, ih]

theorem workspace_eligible_ne_default (ts now : ℤ) (w : WorkspaceRec) :
    workspace_eligible ts now w ≠ some "default" := by
  unfold workspace_eligible
  cases hi : w.id with
  | none => simp
  | some wid =>
    by_cases hd : wid = "default"
    · simp [hd]
    · cases hlm : w.last_modified with
      | none => simp [hd]
      | some lm =>
        by_cases hidle : ts < now - lm.resolve
        · simp [hd, hidle]
        · simp [hd, hidle]

theorem cull_ws_timeout_loop_default_free (ts now : ℤ) (fails : String → Bool)
    (dry : Bool) (workspaces : List WorkspaceRec) :
    (∀ en ∈ (cull_workspaces_with_timeout_loop ts now fails dry workspaces).1,
       en.id ≠ "default") ∧
    "default" ∉ (cull_workspaces_with_timeout_loop ts now fails dry workspaces).2 := by
  induction workspaces with
  | nil =>
    constructor
    · intro en hen
      simp [cull_workspaces_with_timeout_loop] at hen
    · simp [cull_workspaces_with_timeout_loop]
  | cons w rest ih =>
    simp only [cull_workspaces_with_timeout_loop]
    cases hi : w.id with
    | none => exact ih
    | some wid =>
      by_cases hd : wid = "default"
      · simp only [hd, beq_self_eq_true, if_pos]
        exact ih
      · cases hlm : w.last_modified with
        | none =>
          simp only [beq_iff_eq, if_neg hd]
          exact ih
        | some lm =>
          by_cases hidle : ts < now - lm.resolve
          · by_cases hdry : dry = true
            · subst hdry
              simp only [beq_iff_eq, if_neg hd, if_pos hidle, if_true]
              constructor
              · intro en hen
                rcases List.mem_cons.mp hen with hhead | htail
                · rw [hhead]
                  exact hd
                · exact ih.1 en htail
              · exact ih.2
            · by_cases hf : fails wid = true
              · simp only [beq_iff_eq, if_neg hd, if_pos hidle, if_neg hdry, if_pos hf]
                constructor
                · intro en hen
                  rcases List.mem_cons.mp hen with hhead | htail
                  · rw [hhead]
                    exact hd
                  · exact ih.1 en htail
                · intro hcon
                  rcases List.mem_cons.mp hcon with hhead | htail
                  · exact hd hhead.symm
                  · exact ih.2 htail
              · simp only [beq_iff_eq, if_neg hd, if_pos hidle, if_neg hdry, if_neg hf]
                constructor
                · intro en hen
                  rcases List.mem_cons.mp hen with hhead | htail
                  · rw [hhead]
                    exact hd
                  · exact ih.1 en htail
                · intro hcon
                  rcases List.mem_cons.mp hcon with hhead | htail
                  · exact hd hhead.symm
                  · exact ih.2 htail
          · simp only [beq_iff_eq, if_neg hd, if_neg hidle]
            exact ih

theorem upd_kernel_cull_enabled_eq (req : List (String × SettingValue))
    (s : CullerState) :
    upd_kernel_cull_enabled req s =
      { s with kernel_cull_enabled :=
          match lookupKey req "kernelCullEnabled" with
          | some v => v.toBool
          | none => s.kernel_cull_enabled } := by
  unfold upd_kernel_cull_enabled
  cases lookupKey req "kernelCullEnabled" <;> rfl

theorem upd_kernel_cull_idle_timeout_eq (req : List (String × SettingValue))
    (s : CullerState) :
    upd_kernel_cull_idle_timeout req s =
      { s with kernel_cull_idle_timeout :=
          match lookupKey req "kernelCullIdleTimeout" with
          | some v => v.toInt
          | none => s.kernel_cull_idle_timeout } := by
  unfold upd_kernel_cull_idle_timeout
  cases lookupKey req "kernelCullIdleTimeout" <;> rfl

theorem upd_terminal_cull_enabled_eq (req : List (String × SettingValue))
    (s : CullerState) :
    upd_terminal_cull_enabled req s =
      { s with terminal_cull_enabled :=
          match lookupKey req "terminalCullEnabled" with
          | some v => v.toBool
          | none => s.terminal_cull_enabled } := by
  unfold upd_terminal_cull_enabled
  cases lookupKey req "terminalCullEnabled" <;> rfl

theorem upd_terminal_cull_idle_timeout_eq (req : List (String × SettingValue))
    (s : CullerState) :
    upd_terminal_cull_idle_timeout req s =
      { s with terminal_cull_idle_timeout :=
          match lookupKey req "terminalCullIdleTimeout" with
          | some v => v.toInt
          | none => s.terminal_cull_idle_timeout } := by
  unfold upd_terminal_cull_idle_timeout
  cases lookupKey req "terminalCullIdleTimeout" <;> rfl

theorem upd_terminal_cull_disconnected_only_eq (req : List (String × SettingValue))
    (s : CullerState) :
    upd_terminal_cull_disconnected_only req s =
      { s with terminal_cull_disconnected_only :=
          match lookupKey req "terminalCullDisconnectedOnly" with
          | some v => v.toBool
          | none => s.terminal_cull_disconnected_only } := by
  unfold upd_terminal_cull_disconnected_only
  cases lookupKey req "terminalCullDisconnectedOnly" <;> rfl

theorem upd_workspace_cull_enabled_eq (req : List (String × SettingValue))
    (s : CullerState) :
    upd_workspace_cull_enabled req s =
      { s with workspace_cull_enabled :=
          match lookupKey req "workspaceCullEnabled" with
          | some v => v.toBool
          | none => s.workspace_cull_enabled } := by
  unfold upd_workspace_cull_enabled
  cases lookupKey req "workspaceCullEnabled" <;> rfl

theorem upd_workspace_cull_idle_timeout_eq (req : List (String × SettingValue))
    (s : CullerState) :
    upd_workspace_cull_idle_timeout req s =
      { s with workspace_cull_idle_timeout :=
          match lookupKey req "workspaceCullIdleTimeout" with
          | some v => v.toInt
          | none => s.workspace_cull_idle_timeout } := by
  unfold upd_workspace_cull_idle_timeout
  cases lookupKey req "workspaceCullIdleTimeout" <;> rfl

theorem update_settings_eq (s : CullerState) (req : List (String × SettingValue)) :
    update_settings s req =
      upd_cull_check_interval req
        (upd_workspace_cull_idle_timeout req
          (upd_workspace_cull_enabled req
            (upd_terminal_cull_disconnected_only req
              (upd_terminal_cull_idle_timeout req
                (upd_terminal_cull_enabled req
                  (upd_kernel_cull_idle_timeout req
                    (upd_kernel_cull_enabled req s))))))) := rfl

theorem upd_cull_check_interval_preserves (req : List (String × SettingValue))
    (s : CullerState) :
    (upd_cull_check_interval req s).1.kernel_cull_enabled = s.kernel_cull_enabled ∧
    (upd_cull_check_interval req s).1.kernel_cull_idle_timeout = s.kernel_cull_idle_timeout ∧
    (upd_cull_check_interval req s).1.terminal_cull_enabled = s.terminal_cull_enabled ∧
    (upd_cull_check_interval req s).1.terminal_cull_idle_timeout = s.terminal_cull_idle_timeout ∧
    (upd_cull_check_interval req s).1.terminal_cull_disconnected_only = s.terminal_cull_disconnected_only ∧
    (upd_cull_check_interval req s).1.workspace_cull_enabled = s.workspace_cull_enabled ∧
    (upd_cull_check_interval req s).1.workspace_cull_idle_timeout = s.workspace_cull_idle_timeout ∧
    (upd_cull_check_interval req s).1.last_cull_result = s.last_cull_result ∧
    (upd_cull_check_interval req s).1.result_consumed = s.result_consumed ∧
    (upd_cull_check_interval req s).1.active_terminals = s.active_terminals := by
  cases hv : lookupKey req "cullCheckInterval" with
  | none => simp [upd_cull_check_interval, hv]
  | some v =>
    by_cases hne : v.toInt = s.cull_check_interval
    · simp [upd_cull_check_interval, hv, hne]
    · cases hpc : s.periodic_callback with
      | none => simp [upd_cull_check_interval, stop, start, hv, hne, hpc, bne_iff_ne]
      | some ms => simp [upd_cull_check_interval, stop, start, hv, hne, hpc, bne_iff_ne]

theorem upd_cull_check_interval_value (req : List (String × SettingValue))
    (s : CullerState) :
    (upd_cull_check_interval req s).1.cull_check_interval =
      (match lookupKey req "cullCheckInterval" with
       | some v => v.toInt
       | none => s.cull_check_interval) := by
  cases hv : lookupKey req "cullCheckInterval" with
  | none => simp [upd_cull_check_interval, hv]
  | some v =>
    by_cases hne : v.toInt = s.cull_check_interval
    · simp [upd_cull_check_interval, hv, hne]
    · cases hpc : s.periodic_callback with
      | none => simp [upd_cull_check_interval, stop, start, hv, hne, hpc, bne_iff_ne]
      | some ms => simp [upd_cull_check_interval, stop, start, hv, hne, hpc, bne_iff_ne]

theorem upd_cci_restart (req : List (String × SettingValue)) (s : CullerState)
    (v : SettingValue) (ms : ℤ)
    (hv : lookupKey req "cullCheckInterval" = some v)
    (hne : v.toInt ≠ s.cull_check_interval)
    (hrun : s.periodic_callback = some ms) :
    upd_cull_check_interval req s =
      ({ s with cull_check_interval := v.toInt,
                periodic_callback := some (v.toInt * 60 * 1000) },
       [.stop, .start (v.toInt * 60 * 1000)]) := by
  unfold upd_cull_check_interval stop start
  rw [hv]
  simp [hne, hrun]

theorem upd_cci_same_value (req : List (String × SettingValue)) (s : CullerState)
    (v : SettingValue)
    (hv : lookupKey req "cullCheckInterval" = some v)
    (heq : v.toInt = s.cull_check_interval) :
    upd_cull_check_interval req s = (s, []) := by
  unfold upd_cull_check_interval
  rw [hv]
  simp [heq]

theorem upd_cci_stopped (req : List (String × SettingValue)) (s : CullerState)
    (hstop : s.periodic_callback = none) :
    (upd_cull_check_interval req s).2 = [] ∧
    (upd_cull_check_interval req s).1.periodic_callback = none := by
  cases hv : lookupKey req "cullCheckInterval" with
  | none => simp [upd_cull_check_interval, hv, hstop]
  | some v =>
    by_cases hne : v.toInt = s.cull_check_interval
    · simp [upd_cull_check_interval, hv, hne, hstop]
    · simp [upd_cull_check_interval, stop, start, hv, hne, hstop, bne_iff_ne]

theorem upd_cci_absent (req : List (String × SettingValue)) (s : CullerState)
    (hnone : lookupKey req "cullCheckInterval" = none) :
    upd_cull_check_interval req s = (s, []) := by
  unfold upd_cull_check_interval
  rw [hnone]

theorem lookupKey_eq_none_of_unknown (req : List (String × SettingValue))
    (k : String) (h : ∀ p ∈ req, p.1 ≠ k) :
    lookupKey req k = none := by
  unfold lookupKey
  rw [List.find?_eq_none.mpr]
  · rfl
  · intro p hp
    simp [h p hp]

theorem cull_idle_resources_state_eq (s : CullerState) (e : Env) :
    (cull_idle_resources s e).1 =
      (if !(cull_idle_resources s e).2.kernels_culled.isEmpty
          || !(cull_idle_resources s e).2.terminals_culled.isEmpty
          || !(cull_idle_resources s e).2.workspaces_culled.isEmpty then
        { s with
          last_cull_result := ⟨(cull_idle_resources s e).2.kernels_culled,
                               (cull_idle_resources s e).2.terminals_culled,
                               (cull_idle_resources s e).2.workspaces_culled⟩,
          result_consumed := false }
      else s) := rfl

theorem cull_idle_resources_kernels (s : CullerState) (e : Env)
    (hs : s.kernel_cull_enabled = true) :
    (cull_idle_resources s e).2.kernels_culled = (cull_kernels s e).1 ∧
    (cull_idle_resources s e).2.shutdown_calls = (cull_kernels s e).2 := by
  constructor <;> simp [cull_idle_resources, hs]

theorem cull_idle_resources_terminals (s : CullerState) (e : Env)
    (hs : s.terminal_cull_enabled = true) :
    (cull_idle_resources s e).2.terminals_culled = (cull_terminals s e).1 ∧
    (cull_idle_resources s e).2.terminate_calls = (cull_terminals s e).2 := by
  constructor <;> simp [cull_idle_resources, hs]

/-- C4 counterexample: at 59 elapsed idle seconds the CLI formatter renders
the seconds form 59s, while the idle string the engine attaches to a dry-run
workspace entry for the same idle duration is the minutes form 1.0m: the two
formatters do not produce the same string for every idle duration. -/
theorem C4_counterexample :
    format_idle_time (some (TimeVal.isoZ 0)) 59 = "59s" ∧
    (cull_workspaces_with_timeout sampleEnvWorkspace59 0 true).1 =
      [{ id := "ws1", idle_time := "1.0m", action := "would_cull" }] ∧
    ("59s" : String) ≠ "1.0m" := by
  refine ⟨by decide, by decide, by decide⟩

/-- C4 (amended): for every idle duration of at least 60 seconds the CLI
formatter format_idle_time and the idle-string formatter inlined in the
engine workspace dry-run/cull routine produce exactly the same string (in
particular at the boundaries 60s, 3599s, 3600s, 86399s and 86400s); below
60 seconds the CLI renders the seconds form while the engine formatter has
no seconds bucket and renders the minutes form. -/
theorem C4_formatter_agreement (la : TimeVal) (now : ℤ)
    (h : 60 ≤ now - la.resolve) :
    format_idle_time (some la) now = format_idle_engine (now - la.resolve) := by
  simp only [format_idle_time, format_idle_engine]
  rw [if_neg (by omega : ¬ now - la.resolve < 60)]

theorem C4_formatter_agreement_witness :
    (60 ≤ (3600 : ℤ) - (TimeVal.isoZ 0).resolve) ∧
    format_idle_time (some (TimeVal.isoZ 0)) 3600 =
      format_idle_engine ((3600 : ℤ) - (TimeVal.isoZ 0).resolve) :=
  ⟨by decide, C4_formatter_agreement (TimeVal.isoZ 0) 3600 (by decide)⟩

/-- C3 counterexample: a terminal whose last activity is an ISO-8601 string
with trailing Z denoting an instant exactly 60 minutes before now, with
terminal culling enabled at its default 60-minute timeout and an empty
active-terminal registry, is not culled and terminate is never invoked,
because the source culls only when idle seconds strictly exceed the
threshold (3600 > 3600 is false). -/
theorem C3_counterexample :
    cull_terminals {} sampleEnvTerminalBoundary = ([], []) := by decide

/-- C3 (amended): a terminal whose last activity is an ISO-8601 string with
trailing Z denoting an instant strictly more than 60 minutes before now,
with terminal culling enabled, timeout 60 minutes and no disconnected-only
exemption applying, is culled and the terminal manager terminate call is
invoked exactly once with its name. -/
theorem C3_amended_iso_terminal (s : CullerState) (e : Env)
    (tm : TerminalMgr) (name : String) (t0 : ℤ)
    (hs : s.terminal_cull_enabled = true)
    (hto : s.terminal_cull_idle_timeout = 60)
    (hmgr : e.terminal_mgr = some tm)
    (hlist : tm.list_terminals =
      Except.ok [{ name := some name, last_activity := some (.isoZ t0) }])
    (hactive : name ∉ s.active_terminals)
    (hfail : tm.terminate_fails name = false)
    (hidle : e.now - t0 > 3600) :
    (cull_idle_resources s e).2.terminals_culled = [name] ∧
    (cull_idle_resources s e).2.terminate_calls = [name] := by
  have hct : cull_terminals s e = ([name], [name]) := by
    unfold cull_terminals
    rw [hmgr]
    simp only [hlist]
    rw [cull_terminals_loop_cons]
    have hel : terminal_eligible (s.terminal_cull_idle_timeout * 60) e.now
        s.active_terminals s.terminal_cull_disconnected_only
        { name := some name, last_activity := some (.isoZ t0) } = some name := by
      unfold terminal_eligible
      have hcond : ¬ ((s.terminal_cull_disconnected_only &&
          s.active_terminals.contains name) = true) := by
        simp [hactive]
      simp only [TimeVal.resolve, hto]
      rw [if_neg hcond]
      rw [if_pos (by omega : e.now - t0 > 60 * 60)]
    rw [hel]
    simp [hfail, cull_terminals_loop]
  rcases cull_idle_resources_terminals s e hs with ⟨h1, h2⟩
  rw [h1, h2, hct]
  exact ⟨rfl, rfl⟩

theorem C3_amended_iso_terminal_witness :
    (cull_idle_resources {} sampleEnvTerminalOver).2.terminals_culled = ["t1"] ∧
    (cull_idle_resources {} sampleEnvTerminalOver).2.terminate_calls = ["t1"] :=
  C3_amended_iso_terminal {} sampleEnvTerminalOver sampleTerminalMgr "t1" 0
    rfl rfl rfl rfl (by decide) rfl (by decide)

/-- C6: the workspace whose identifier is the literal string default is
never deleted and never appears in any culled or would-cull result, for
every timeout and in both the periodic workspace policy and the
timeout-parameterised CLI/dry-run variant. -/
theorem C6_default_workspace_never_culled (s : CullerState) (e : Env)
    (timeout_minutes : ℤ) (dry_run : Bool) :
    "default" ∉ (cull_workspaces s e).1 ∧
    "default" ∉ (cull_workspaces s e).2 ∧
    ((cull_workspaces_with_timeout e timeout_minutes dry_run).1.all
       (fun en => !(en.id == "default")) = true) ∧
    "default" ∉ (cull_workspaces_with_timeout e timeout_minutes dry_run).2 := by
  refine ⟨?_, ?_, ?_, ?_⟩
  · unfold cull_workspaces
    cases hm : e.workspace_mgr with
    | none => simp
    | some m =>
      cases hl : m.list_workspaces with
      | error u => simp [hl]
      | ok wss =>
        simp only [hl]
        rw [cull_workspaces_loop_eq]
        intro hcon
        rw [List.mem_filterMap] at hcon
        obtain ⟨w, hw, hfw⟩ := hcon
        cases hel : workspace_eligible (s.workspace_cull_idle_timeout * 60) e.now w with
        | none => rw [hel] at hfw; simp at hfw
        | some wid =>
          rw [hel] at hfw
          by_cases hf : m.delete_fails wid = true
          · simp [hf] at hfw
          · simp [hf] at hfw
            subst hfw
            exact workspace_eligible_ne_default _ _ _ hel
  · unfold cull_workspaces
    cases hm : e.workspace_mgr with
    | none => simp
    | some m =>
      cases hl : m.list_workspaces with
      | error u => simp [hl]
      | ok wss =>
        simp only [hl]
        rw [cull_workspaces_loop_eq]
        intro hcon
        rw [List.mem_filterMap] at hcon
        obtain ⟨w, hw, hfw⟩ := hcon
        exact workspace_eligible_ne_default _ _ _ hfw
  · unfold cull_workspaces_with_timeout
    cases hm : e.workspace_mgr with
    | none => simp
    | some m =>
      cases hl : m.list_workspaces with
      | error u => simp [hl]
      | ok wss =>
        simp only [hl]
        rw [List.all_eq_true]
        intro en hen
        have := (cull_ws_timeout_loop_default_free (timeout_minutes * 60) e.now
          m.delete_fails dry_run wss).1 en hen
        simp [this]
  · unfold cull_workspaces_with_timeout
    cases hm : e.workspace_mgr with
    | none => simp
    | some m =>
      cases hl : m.list_workspaces with
      | error u => simp [hl]
      | ok wss =>
        simp only [hl]
        exact (cull_ws_timeout_loop_default_free (timeout_minutes * 60) e.now
          m.delete_fails dry_run wss).2

theorem C6_default_workspace_never_culled_witness :
    "default" ∉ (cull_workspaces {} sampleEnvWorkspace59).1 ∧
    "default" ∉ (cull_workspaces {} sampleEnvWorkspace59).2 ∧
    ((cull_workspaces_with_timeout sampleEnvWorkspace59 0 true).1.all
       (fun en => !(en.id == "default")) = true) ∧
    "default" ∉ (cull_workspaces_with_timeout sampleEnvWorkspace59 0 true).2 :=
  C6_default_workspace_never_culled {} sampleEnvWorkspace59 0 true

theorem cull_kernels_filter (s : CullerState) (e : Env) (ids : List String)
    (hlist : e.kernel_mgr.list_kernel_ids = Except.ok ids) :
    cull_kernels s e =
      (ids.filter (fun i => kernel_should_cull (s.kernel_cull_idle_timeout * 60)
          e.now e.kernel_mgr i && !e.kernel_mgr.shutdown_fails i),
       ids.filter (fun i => kernel_should_cull (s.kernel_cull_idle_timeout * 60)
          e.now e.kernel_mgr i)) := by
  unfold cull_kernels
  simp only [hlist]
  exact cull_kernels_loop_eq _ _ _ _

/-- C5: a terminal whose name is present in the active-terminal registry most
recently installed wholesale by set_active_terminals is, when the
disconnected-only setting is on, never culled and terminate is never invoked
on it, whatever its idle duration. -/
theorem C5_active_terminal_never_culled (s : CullerState) (e : Env)
    (terminals : List String) (name : String)
    (hmem : name ∈ terminals)
    (hdisc : s.terminal_cull_disconnected_only = true) :
    name ∉ (cull_terminals (set_active_terminals s terminals) e).1 ∧
    name ∉ (cull_terminals (set_active_terminals s terminals) e).2 := by
  unfold cull_terminals set_active_terminals
  cases hm : e.terminal_mgr with
  | none => simp
  | some m =>
    cases hl : m.list_terminals with
    | error u => simp [hl]
    | ok ts =>
      simp only [hl]
      rw [cull_terminals_loop_eq]
      constructor
      · intro hcon
        rw [List.mem_filterMap] at hcon
        obtain ⟨t, ht, hft⟩ := hcon
        cases hel : terminal_eligible (s.terminal_cull_idle_timeout * 60) e.now
            terminals s.terminal_cull_disconnected_only t with
        | none => rw [hel] at hft; simp at hft
        | some n =>
          rw [hel] at hft
          by_cases hf : m.terminate_fails n = true
          · simp [hf] at hft
          · simp [hf] at hft
            subst hft
            exact terminal_eligible_of_active _ _ _ _ _ _ hdisc hmem hel
      · intro hcon
        rw [List.mem_filterMap] at hcon
        obtain ⟨t, ht, hft⟩ := hcon
        exact terminal_eligible_of_active _ _ _ _ _ _ hdisc hmem hft

theorem C5_witness :
    "t1" ∉ (cull_terminals (set_active_terminals {} ["t1"]) sampleEnvTerminalLong).1 ∧
    "t1" ∉ (cull_terminals (set_active_terminals {} ["t1"]) sampleEnvTerminalLong).2 :=
  C5_active_terminal_never_culled {} sampleEnvTerminalLong ["t1"] "t1" (by decide) rfl

/-- C1: with kernel culling enabled, a kernel listed in a pass whose shutdown
call does not fail appears in the culled list with exactly one shutdown
invocation if and only if it is obtainable, its execution state (defaulting
to idle) is not busy, its last activity is present, and its idle seconds
strictly exceed the kernel timeout in seconds; and a busy kernel is never
culled nor shut down regardless of idle duration. -/
theorem C1_kernel_cull_iff (s : CullerState) (e : Env) (ids : List String)
    (kid : String)
    (hs : s.kernel_cull_enabled = true)
    (hlist : e.kernel_mgr.list_kernel_ids = Except.ok ids)
    (hnd : ids.Nodup) (hmem : kid ∈ ids) :
    (e.kernel_mgr.shutdown_fails kid = false →
      ((kid ∈ (cull_idle_resources s e).2.kernels_culled ∧
        (cull_idle_resources s e).2.shutdown_calls.count kid = 1) ↔
       (∃ k, e.kernel_mgr.get_kernel kid = some k ∧
          k.execution_state.getD "idle" ≠ "busy" ∧
          ∃ la, k.last_activity = some la ∧
            e.now - la.toUtc > s.kernel_cull_idle_timeout * 60))) ∧
    (∀ k, e.kernel_mgr.get_kernel kid = some k →
       k.execution_state.getD "idle" = "busy" →
       kid ∉ (cull_idle_resources s e).2.kernels_culled ∧
       kid ∉ (cull_idle_resources s e).2.shutdown_calls) := by
  obtain ⟨hk1, hk2⟩ := cull_idle_resources_kernels s e hs
  rw [hk1, hk2, cull_kernels_filter s e ids hlist]
  constructor
  · intro hnf
    constructor
    · rintro ⟨hmc, -⟩
      rw [List.mem_filter] at hmc
      have hb := hmc.2
      rw [Bool.and_eq_true] at hb
      exact (kernel_should_cull_true_iff _ _ _ _).mp hb.1
    · intro hcond
      have hsc := (kernel_should_cull_true_iff (s.kernel_cull_idle_timeout * 60)
        e.now e.kernel_mgr kid).mpr hcond
      refine ⟨?_, ?_⟩
      · rw [List.mem_filter]
        refine ⟨hmem, ?_⟩
        rw [hsc, hnf]
        rfl
      · have hmf : kid ∈ ids.filter (fun i => kernel_should_cull
            (s.kernel_cull_idle_timeout * 60) e.now e.kernel_mgr i) :=
          List.mem_filter.mpr ⟨hmem, hsc⟩
        exact List.count_eq_one_of_mem (hnd.filter _) hmf
  · intro k hget hbusy
    have hsc : kernel_should_cull (s.kernel_cull_idle_timeout * 60) e.now
        e.kernel_mgr kid = false := by
      unfold kernel_should_cull
      rw [hget]
      simp [hbusy]
    constructor
    · intro hcon
      rw [List.mem_filter] at hcon
      rw [hsc] at hcon
      simp at hcon
    · intro hcon
      rw [List.mem_filter] at hcon
      rw [hsc] at hcon
      simp at hcon

theorem C1_witness :
    "k1" ∈ (cull_idle_resources {} sampleEnvKernel).2.kernels_culled ∧
    (cull_idle_resources {} sampleEnvKernel).2.shutdown_calls.count "k1" = 1 :=
  ((C1_kernel_cull_iff {} sampleEnvKernel ["k1"] "k1" rfl rfl (by decide)
      (by decide)).1 rfl).mpr
    ⟨{ execution_state := some "idle", last_activity := some (.aware 0) },
     by decide, by decide, .aware 0, rfl, by decide⟩

/-- C10: a kernel object that carries no execution_state attribute is read
through getattr with default idle, so it is not exempted by the busy check:
it is culled exactly when its last activity is present and its idle seconds
strictly exceed the kernel timeout. -/
theorem C10_no_execution_state_idle (s : CullerState) (e : Env)
    (ids : List String) (kid : String) (k : Kernel)
    (hs : s.kernel_cull_enabled = true)
    (hlist : e.kernel_mgr.list_kernel_ids = Except.ok ids)
    (hmem : kid ∈ ids)
    (hget : e.kernel_mgr.get_kernel kid = some k)
    (hnostate : k.execution_state = none)
    (hnf : e.kernel_mgr.shutdown_fails kid = false) :
    kid ∈ (cull_idle_resources s e).2.kernels_culled ↔
      ∃ la, k.last_activity = some la ∧
        e.now - la.toUtc > s.kernel_cull_idle_timeout * 60 := by
  obtain ⟨hk1, -⟩ := cull_idle_resources_kernels s e hs
  rw [hk1, cull_kernels_filter s e ids hlist, List.mem_filter]
  constructor
  · rintro ⟨-, hb⟩
    rw [Bool.and_eq_true] at hb
    obtain ⟨k2, hget2, -, la, hla, hidle⟩ :=
      (kernel_should_cull_true_iff _ _ _ _).mp hb.1
    rw [hget] at hget2
    obtain rfl : k = k2 := by injection hget2
    exact ⟨la, hla, hidle⟩
  · rintro ⟨la, hla, hidle⟩
    refine ⟨hmem, ?_⟩
    rw [Bool.and_eq_true]
    refine ⟨(kernel_should_cull_true_iff _ _ _ _).mpr
      ⟨k, hget, ?_, la, hla, hidle⟩, by rw [hnf]; rfl⟩
    rw [hnostate]
    simp

theorem C10_witness :
    "k1" ∈ (cull_idle_resources {} sampleEnvNoState).2.kernels_culled :=
  (C10_no_execution_state_idle {} sampleEnvNoState ["k1"] "k1"
     { execution_state := none, last_activity := some (.aware 0) }
     rfl rfl (by decide) (by decide) rfl rfl).mpr ⟨.aware 0, rfl, by decide⟩

/-- C9: failures are isolated per resource kind and per resource: a raising
kernel listing makes the kernel policy return an empty list while the
terminal and workspace outcomes of the same pass do not depend on the kernel
manager at all; the culled list is the per-kernel predicate filtered by the
absence of a shutdown failure, so a kernel whose shutdown raises is skipped
while the loop continues; the same holds for terminals. -/
theorem C9_failure_isolation (s : CullerState) (e : Env) :
    (e.kernel_mgr.list_kernel_ids = Except.error () →
       cull_kernels s e = ([], [])) ∧
    (∀ m : KernelMgr,
       (cull_idle_resources s { e with kernel_mgr := m }).2.terminals_culled =
         (cull_idle_resources s e).2.terminals_culled ∧
       (cull_idle_resources s { e with kernel_mgr := m }).2.workspaces_culled =
         (cull_idle_resources s e).2.workspaces_culled) ∧
    (∀ ids, e.kernel_mgr.list_kernel_ids = Except.ok ids →
       (cull_kernels s e).1 = ids.filter (fun i =>
          kernel_should_cull (s.kernel_cull_idle_timeout * 60) e.now
            e.kernel_mgr i && !e.kernel_mgr.shutdown_fails i)) ∧
    (∀ kid, e.kernel_mgr.shutdown_fails kid = true →
       kid ∉ (cull_kernels s e).1) ∧
    (∀ tm, e.terminal_mgr = some tm → tm.list_terminals = Except.error () →
       cull_terminals s e = ([], [])) ∧
    (∀ tm, e.terminal_mgr = some tm →
       ∀ name, tm.terminate_fails name = true →
         name ∉ (cull_terminals s e).1) := by
  refine ⟨?_, ?_, ?_, ?_, ?_, ?_⟩
  · intro h
    unfold cull_kernels
    simp [h]
  · intro m
    exact ⟨rfl, rfl⟩
  · intro ids h
    rw [cull_kernels_filter s e ids h]
  · intro kid hf
    cases hl : e.kernel_mgr.list_kernel_ids with
    | error u =>
      unfold cull_kernels
      simp [hl]
    | ok ids =>
      rw [cull_kernels_filter s e ids hl]
      intro hcon
      rw [List.mem_filter] at hcon
      have := hcon.2
      rw [hf] at this
      simp at this
  · intro tm h1 h2
    unfold cull_terminals
    simp [h1, h2]
  · intro tm h1 name hf
    unfold cull_terminals
    simp only [h1]
    cases hl : tm.list_terminals with
    | error u => simp [hl]
    | ok ts =>
      simp only [hl]
      rw [cull_terminals_loop_eq]
      intro hcon
      rw [List.mem_filterMap] at hcon
      obtain ⟨t, ht, hft⟩ := hcon
      cases hel : terminal_eligible (s.terminal_cull_idle_timeout * 60) e.now
          s.active_terminals s.terminal_cull_disconnected_only t with
      | none => rw [hel] at hft; simp at hft
      | some n =>
        rw [hel] at hft
        by_cases hfn : tm.terminate_fails n = true
        · simp [hfn] at hft
        · simp [hfn] at hft
          subst hft
          exact hfn hf

theorem C9_witness :
    cull_kernels {} sampleEnvListingRaises = ([], []) :=
  (C9_failure_isolation {} sampleEnvListingRaises).1 rfl

theorem bnot_isEmpty_of_ne {α : Type} (l : List α) (h : l ≠ []) :
    (!l.isEmpty) = true := by
  cases l with
  | nil => exact absurd rfl h
  | cons a t => rfl

/-- C2: get_last_cull_result is single-delivery: after a pass that evicted
at least one resource the first query returns that pass aggregate and marks
it consumed, every query of a consumed state returns the all-empty structure
and leaves the state untouched, and a pass that evicts nothing leaves both
the stored result and the consumed flag unchanged. -/
theorem C2_single_delivery (s : CullerState) (e : Env) :
    (((cull_idle_resources s e).2.kernels_culled ≠ [] ∨
      (cull_idle_resources s e).2.terminals_culled ≠ [] ∨
      (cull_idle_resources s e).2.workspaces_culled ≠ []) →
      ((get_last_cull_result (cull_idle_resources s e).1).1 =
         ⟨(cull_idle_resources s e).2.kernels_culled,
          (cull_idle_resources s e).2.terminals_culled,
          (cull_idle_resources s e).2.workspaces_culled⟩ ∧
       (get_last_cull_result (cull_idle_resources s e).1).2.result_consumed = true ∧
       (get_last_cull_result
          (get_last_cull_result (cull_idle_resources s e).1).2).1 = ⟨[], [], []⟩)) ∧
    (∀ st : CullerState, st.result_consumed = true →
       get_last_cull_result st = (⟨[], [], []⟩, st)) ∧
    (((cull_idle_resources s e).2.kernels_culled = [] ∧
      (cull_idle_resources s e).2.terminals_culled = [] ∧
      (cull_idle_resources s e).2.workspaces_culled = []) →
      ((cull_idle_resources s e).1.last_cull_result = s.last_cull_result ∧
       (cull_idle_resources s e).1.result_consumed = s.result_consumed)) := by
  refine ⟨?_, ?_, ?_⟩
  · intro hne
    have hcond : (!(cull_idle_resources s e).2.kernels_culled.isEmpty
        || !(cull_idle_resources s e).2.terminals_culled.isEmpty
        || !(cull_idle_resources s e).2.workspaces_culled.isEmpty) = true := by
      rcases hne with h | h | h
      · simp [bnot_isEmpty_of_ne _ h]
      · simp [bnot_isEmpty_of_ne _ h]
      · simp [bnot_isEmpty_of_ne _ h]
    rw [cull_idle_resources_state_eq s e, if_pos hcond]
    refine ⟨?_, ?_, ?_⟩
    · simp [get_last_cull_result]
    · simp [get_last_cull_result]
    · simp [get_last_cull_result]
  · intro st hst
    unfold get_last_cull_result
    rw [if_pos hst]
  · rintro ⟨h1, h2, h3⟩
    rw [cull_idle_resources_state_eq s e,
        if_neg (by simp [h1, h2, h3] : ¬ (!(cull_idle_resources s e).2.kernels_culled.isEmpty
          || !(cull_idle_resources s e).2.terminals_culled.isEmpty
          || !(cull_idle_resources s e).2.workspaces_culled.isEmpty) = true)]
    exact ⟨rfl, rfl⟩

theorem C2_witness :
    (get_last_cull_result (cull_idle_resources {} sampleEnvKernel).1).1 =
      ⟨(cull_idle_resources {} sampleEnvKernel).2.kernels_culled,
       (cull_idle_resources {} sampleEnvKernel).2.terminals_culled,
       (cull_idle_resources {} sampleEnvKernel).2.workspaces_culled⟩ ∧
    (get_last_cull_result (cull_idle_resources {} sampleEnvKernel).1).2.result_consumed = true ∧
    (get_last_cull_result
       (get_last_cull_result (cull_idle_resources {} sampleEnvKernel).1).2).1 =
      ⟨[], [], []⟩ :=
  (C2_single_delivery {} sampleEnvKernel).1 (Or.inl (by decide))

/-- C7: update_settings applies only the keys present in the request: every
settings field whose key is absent is reported unchanged by get_settings
after the update, and a request containing only unrecognised keys leaves the
state unchanged without error. -/
theorem C7_unset_keys_unchanged (s : CullerState) (req : List (String × SettingValue)) :
    (∀ k, k ∈ settings_keys → lookupKey req k = none →
       lookupKey (get_settings (update_settings s req).1) k =
         lookupKey (get_settings s) k) ∧
    ((∀ p ∈ req, p.1 ∉ settings_keys) → update_settings s req = (s, [])) := by
  constructor
  · intro k hk hnone
    unfold lookupKey at hnone
    simp only [settings_keys, List.mem_cons, List.not_mem_nil, or_false] at hk
    rcases hk with rfl | rfl | rfl | rfl | rfl | rfl | rfl | rfl
    · simp [get_settings, lookupKey, update_settings_eq,
        upd_cull_check_interval_preserves, upd_cull_check_interval_value,
        upd_workspace_cull_idle_timeout_eq, upd_workspace_cull_enabled_eq,
        upd_terminal_cull_disconnected_only_eq, upd_terminal_cull_idle_timeout_eq,
        upd_terminal_cull_enabled_eq, upd_kernel_cull_idle_timeout_eq,
        upd_kernel_cull_enabled_eq, hnone]
    · simp [get_settings, lookupKey, update_settings_eq,
        upd_cull_check_interval_preserves, upd_cull_check_interval_value,
        upd_workspace_cull_idle_timeout_eq, upd_workspace_cull_enabled_eq,
        upd_terminal_cull_disconnected_only_eq, upd_terminal_cull_idle_timeout_eq,
        upd_terminal_cull_enabled_eq, upd_kernel_cull_idle_timeout_eq,
        upd_kernel_cull_enabled_eq, hnone]
    · simp [get_settings, lookupKey, update_settings_eq,
        upd_cull_check_interval_preserves, upd_cull_check_interval_value,
        upd_workspace_cull_idle_timeout_eq, upd_workspace_cull_enabled_eq,
        upd_terminal_cull_disconnected_only_eq, upd_terminal_cull_idle_timeout_eq,
        upd_terminal_cull_enabled_eq, upd_kernel_cull_idle_timeout_eq,
        upd_kernel_cull_enabled_eq, hnone]
    · simp [get_settings, lookupKey, update_settings_eq,
        upd_cull_check_interval_preserves, upd_cull_check_interval_value,
        upd_workspace_cull_idle_timeout_eq, upd_workspace_cull_enabled_eq,
        upd_terminal_cull_disconnected_only_eq, upd_terminal_cull_idle_timeout_eq,
        upd_terminal_cull_enabled_eq, upd_kernel_cull_idle_timeout_eq,
        upd_kernel_cull_enabled_eq, hnone]
    · simp [get_settings, lookupKey, update_settings_eq,
        upd_cull_check_interval_preserves, upd_cull_check_interval_value,
        upd_workspace_cull_idle_timeout_eq, upd_workspace_cull_enabled_eq,
        upd_terminal_cull_disconnected_only_eq, upd_terminal_cull_idle_timeout_eq,
        upd_terminal_cull_enabled_eq, upd_kernel_cull_idle_timeout_eq,
        upd_kernel_cull_enabled_eq, hnone]
    · simp [get_settings, lookupKey, update_settings_eq,
        upd_cull_check_interval_preserves, upd_cull_check_interval_value,
        upd_workspace_cull_idle_timeout_eq, upd_workspace_cull_enabled_eq,
        upd_terminal_cull_disconnected_only_eq, upd_terminal_cull_idle_timeout_eq,
        upd_terminal_cull_enabled_eq, upd_kernel_cull_idle_timeout_eq,
        upd_kernel_cull_enabled_eq, hnone]
    · simp [get_settings, lookupKey, update_settings_eq,
        upd_cull_check_interval_preserves, upd_cull_check_interval_value,
        upd_workspace_cull_idle_timeout_eq, upd_workspace_cull_enabled_eq,
        upd_terminal_cull_disconnected_only_eq, upd_terminal_cull_idle_timeout_eq,
        upd_terminal_cull_enabled_eq, upd_kernel_cull_idle_timeout_eq,
        upd_kernel_cull_enabled_eq, hnone]
    · simp [get_settings, lookupKey, update_settings_eq,
        upd_cull_check_interval_preserves, upd_cull_check_interval_value,
        upd_workspace_cull_idle_timeout_eq, upd_workspace_cull_enabled_eq,
        upd_terminal_cull_disconnected_only_eq, upd_terminal_cull_idle_timeout_eq,
        upd_terminal_cull_enabled_eq, upd_kernel_cull_idle_timeout_eq,
        upd_kernel_cull_enabled_eq, hnone]
  · intro h
    have hkeys : ∀ k, k ∈ settings_keys → lookupKey req k = none := by
      intro k hk
      apply lookupKey_eq_none_of_unknown
      intro p hp heq
      exact h p hp (heq ▸ hk)
    have h1 := hkeys "kernelCullEnabled" (by simp [settings_keys])
    have h2 := hkeys "kernelCullIdleTimeout" (by simp [settings_keys])
    have h3 := hkeys "terminalCullEnabled" (by simp [settings_keys])
    have h4 := hkeys "terminalCullIdleTimeout" (by simp [settings_keys])
    have h5 := hkeys "terminalCullDisconnectedOnly" (by simp [settings_keys])
    have h6 := hkeys "workspaceCullEnabled" (by simp [settings_keys])
    have h7 := hkeys "workspaceCullIdleTimeout" (by simp [settings_keys])
    have h8 := hkeys "cullCheckInterval" (by simp [settings_keys])
    rw [update_settings_eq]
    rw [show upd_workspace_cull_idle_timeout req (upd_workspace_cull_enabled req
        (upd_terminal_cull_disconnected_only req (upd_terminal_cull_idle_timeout req
          (upd_terminal_cull_enabled req (upd_kernel_cull_idle_timeout req
            (upd_kernel_cull_enabled req s)))))) = s from by
      simp [upd_workspace_cull_idle_timeout_eq, upd_workspace_cull_enabled_eq,
        upd_terminal_cull_disconnected_only_eq, upd_terminal_cull_idle_timeout_eq,
        upd_terminal_cull_enabled_eq, upd_kernel_cull_idle_timeout_eq,
        upd_kernel_cull_enabled_eq, h1, h2, h3, h4, h5, h6, h7]]
    exact upd_cci_absent req s h8

theorem C7_witness :
    (lookupKey (get_settings (update_settings {}
        [("kernelCullEnabled", SettingValue.boolVal false)]).1)
       "terminalCullEnabled" =
     lookupKey (get_settings ({} : CullerState)) "terminalCullEnabled") ∧
    update_settings {} [("someUnknownKey", SettingValue.boolVal true)] =
      ({}, []) :=
  ⟨(C7_unset_keys_unchanged {} [("kernelCullEnabled", SettingValue.boolVal false)]).1
      "terminalCullEnabled" (by decide) (by decide),
   (C7_unset_keys_unchanged {} [("someUnknownKey", SettingValue.boolVal true)]).2
      (by decide)⟩

/-- C8: when update_settings carries a cullCheckInterval different from the
current value while a periodic callback is attached, the scheduler performs
exactly one stop followed by exactly one start and is afterwards running
with period cullCheckInterval * 60 * 1000 milliseconds; when the value is
unchanged, or the engine is stopped, or the key is absent, no stop or start
occurs. -/
theorem C8_interval_restart (s : CullerState)
    (req : List (String × SettingValue)) :
    (∀ v ms, s.periodic_callback = some ms →
       lookupKey req "cullCheckInterval" = some v →
       v.toInt ≠ s.cull_check_interval →
       (update_settings s req).2 =
         [SchedEvent.stop, SchedEvent.start (v.toInt * 60 * 1000)] ∧
       (update_settings s req).1.periodic_callback =
         some (v.toInt * 60 * 1000) ∧
       (update_settings s req).1.cull_check_interval = v.toInt) ∧
    (∀ v, lookupKey req "cullCheckInterval" = some v →
       v.toInt = s.cull_check_interval →
       (update_settings s req).2 = [] ∧
       (update_settings s req).1.periodic_callback = s.periodic_callback) ∧
    (s.periodic_callback = none → (update_settings s req).2 = []) ∧
    (lookupKey req "cullCheckInterval" = none →
       (update_settings s req).2 = [] ∧
       (update_settings s req).1.periodic_callback = s.periodic_callback) := by
  simp only [update_settings_eq]
  have hpc : (upd_workspace_cull_idle_timeout req (upd_workspace_cull_enabled req
      (upd_terminal_cull_disconnected_only req (upd_terminal_cull_idle_timeout req
        (upd_terminal_cull_enabled req (upd_kernel_cull_idle_timeout req
          (upd_kernel_cull_enabled req s))))))).periodic_callback =
      s.periodic_callback := by
    simp [upd_workspace_cull_idle_timeout_eq, upd_workspace_cull_enabled_eq,
      upd_terminal_cull_disconnected_only_eq, upd_terminal_cull_idle_timeout_eq,
      upd_terminal_cull_enabled_eq, upd_kernel_cull_idle_timeout_eq,
      upd_kernel_cull_enabled_eq]
  have hci : (upd_workspace_cull_idle_timeout req (upd_workspace_cull_enabled req
      (upd_terminal_cull_disconnected_only req (upd_terminal_cull_idle_timeout req
        (upd_terminal_cull_enabled req (upd_kernel_cull_idle_timeout req
          (upd_kernel_cull_enabled req s))))))).cull_check_interval =
      s.cull_check_interval := by
    simp [upd_workspace_cull_idle_timeout_eq, upd_workspace_cull_enabled_eq,
      upd_terminal_cull_disconnected_only_eq, upd_terminal_cull_idle_timeout_eq,
      upd_terminal_cull_enabled_eq, upd_kernel_cull_idle_timeout_eq,
      upd_kernel_cull_enabled_eq]
  refine ⟨?_, ?_, ?_, ?_⟩
  · intro v ms hrun hv hne
    rw [upd_cci_restart req _ v ms hv (by rw [hci]; exact hne)
      (by rw [hpc]; exact hrun)]
    exact ⟨rfl, rfl, rfl⟩
  · intro v hv heq
    rw [upd_cci_same_value req _ v hv (by rw [hci]; exact heq)]
    exact ⟨rfl, hpc⟩
  · intro hstop
    exact (upd_cci_stopped req _ (by rw [hpc]; exact hstop)).1
  · intro hnone
    rw [upd_cci_absent req _ hnone]
    exact ⟨rfl, hpc⟩

theorem C8_witness :
    (update_settings { periodic_callback := some 300000 }
       [("cullCheckInterval", SettingValue.intVal 10)]).2 =
      [SchedEvent.stop, SchedEvent.start 600000] ∧
    (update_settings { periodic_callback := some 300000 }
       [("cullCheckInterval", SettingValue.intVal 10)]).1.periodic_callback =
      some 600000 ∧
    (update_settings { periodic_callback := some 300000 }
       [("cullCheckInterval", SettingValue.intVal 10)]).1.cull_check_interval =
      10 := by
  obtain ⟨h1, h2, h3⟩ :=
    (C8_interval_restart { periodic_callback := some 300000 }
      [("cullCheckInterval", SettingValue.intVal 10)]).1
      (SettingValue.intVal 10) 300000 rfl (by decide) (by decide)
  refine ⟨?_, ?_, ?_⟩
  · rw [h1]
    decide
  · rw [h2]
    decide
  · rw [h3]
    decide
